import Mathlib

/-!
# AntiProxy — verification of the request-pipeline specification

A shallow embedding of the AntiProxy reverse proxy's request pipeline:

* `Auth` — the API-key authentication middleware
  (`src/proxy/middleware/auth.rs`);
* `Upstream` — the upstream client with endpoint failover and promotion
  (`src/proxy/upstream/client.rs`);
* `Monitor` — the stream/usage monitor middleware
  (`src/proxy/middleware/monitor.rs`);
* `WebAuth` — the web-UI session middleware
  (`src/proxy/middleware/web_auth.rs`).

Rust `&str` operations are modelled by structural functions over `List Char`
(the `data` of a `String`), so that every definition evaluates by `decide`.
External collaborators (the credential store `find_by_key` / `record_usage`,
`serde_json` parsing, UTF-8 decoding of raw bytes, the session store) are
modelled as explicit function parameters: the code under verification only
observes their results.
-/

/-! ## String helpers (structural models of Rust `&str` operations) -/

/-- `chStartsWith p s`: the char list `s` starts with `p`
(Rust `str::starts_with` on ASCII patterns). -/
def chStartsWith : List Char → List Char → Bool
  | [], _ => true
  | _ :: _, [] => false
  | p :: ps, c :: cs => p == c && chStartsWith ps cs

/-- Rust `s.starts_with(p)`. -/
def strStartsWith (s p : String) : Bool := chStartsWith p.data s.data

/-- Rust `s.ends_with(p)`. -/
def strEndsWith (s p : String) : Bool := chStartsWith p.data.reverse s.data.reverse

/-- Drop the first `n` characters (model of stripping a known ASCII prefix). -/
def strDropChars (s : String) (n : Nat) : String := String.mk (s.data.drop n)

/-- Rust `str::split(sep)` on a char separator: always returns at least one
(possibly empty) piece, splitting at every occurrence of `sep`. -/
def chSplit (sep : Char) : List Char → List (List Char)
  | [] => [[]]
  | c :: cs =>
    let rest := chSplit sep cs
    if c == sep then [] :: rest
    else
      match rest with
      | r :: rs => (c :: r) :: rs
      | [] => [[c]]

/-- Rust `s.split(sep)` collected to a list. -/
def strSplit (sep : Char) (s : String) : List String := (chSplit sep s.data).map String.mk

/-- Rust `path.rsplit('.').next().unwrap()`: the segment after the last `'.'`
(the whole string when it has no `'.'`). -/
def last_dot_segment (path : String) : String := ((strSplit '.' path).getLast?).getD path

/-- Rust `str::trim` (whitespace on both ends). -/
def chTrim (cs : List Char) : List Char :=
  ((cs.dropWhile Char.isWhitespace).reverse.dropWhile Char.isWhitespace).reverse

/-- Rust `s.trim()`. -/
def strTrim (s : String) : String := String.mk (chTrim s.data)

/-- `chContains needle hay`: `needle` occurs as a contiguous run of `hay`
(Rust `str::contains` on a string pattern). -/
def chContains (needle : List Char) : List Char → Bool
  | [] => needle.isEmpty
  | c :: cs => chStartsWith needle (c :: cs) || chContains needle cs

/-- Rust `s.contains(sub)`. -/
def strContains (s sub : String) : Bool := chContains sub.data s.data

/-- Rust `s.trim_start_matches("data: ")`: repeatedly strip a leading
`"data: "`. -/
def chDropDataPfx : List Char → List Char
  | 'd' :: 'a' :: 't' :: 'a' :: ':' :: ' ' :: rest => chDropDataPfx rest
  | cs => cs

/-- Rust `str::lines()` collected to a list: split on `'\n'`, no empty final
line for a trailing newline, and a trailing `'\r'` stripped from each line. -/
def rust_lines (s : String) : List String :=
  let parts := strSplit '\n' s
  let parts := if parts.getLast? == some "" then parts.dropLast else parts
  parts.map (fun l => if strEndsWith l "\r" then String.mk l.data.dropLast else l)

/-! ## `Auth`: API-key authentication middleware (`src/proxy/middleware/auth.rs`) -/

namespace Auth

/-- A record of the dynamic credential store, as consumed by the middleware
(`crate::modules::api_keys::find_by_key`): only `id`, `name` and `enabled`
are read by `auth_middleware`. -/
structure ApiKeyRecord where
  id : String
  name : String
  enabled : Bool
deriving DecidableEq

/-- `AuthenticatedKey` (auth.rs lines 118-123): the resolved identity stored
in the request extensions. -/
structure AuthenticatedKey where
  key : String
  key_id : String
  key_name : String
deriving DecidableEq

/-- The effective authentication mode (`ProxyAuthMode`). -/
inductive ProxyAuthMode
  | Off
  | AllExceptHealth
  | Enforced
deriving DecidableEq

/-- `matches!(mode, ProxyAuthMode::Off)` (auth.rs line 93). -/
def matches_off : ProxyAuthMode → Bool
  | ProxyAuthMode.Off => true
  | _ => false

/-- `matches!(mode, ProxyAuthMode::AllExceptHealth)` (auth.rs line 97). -/
def matches_all_except_health : ProxyAuthMode → Bool
  | ProxyAuthMode.AllExceptHealth => true
  | _ => false

/-- Outcome of the middleware: pass the request on (with the identity, if any,
inserted into its extensions), or reject with 401 UNAUTHORIZED. -/
inductive AuthResult
  | allow (identity : Option AuthenticatedKey)
  | unauthorized
deriving DecidableEq

/-- `is_static_asset` (auth.rs lines 125-138). -/
def static_exts : List String := ["css", "js", "png", "svg", "jpg", "jpeg", "webp", "ico"]

/-- `is_static_asset` (auth.rs lines 125-138): exact matches, the assets
directory, or a recognized extension after the last dot. -/
def is_static_asset (path : String) : Bool :=
  if path == "/" || path == "/index.html" || path == "/favicon.ico" then true
  else if strStartsWith path "/assets/" then true
  else static_exts.contains (last_dot_segment path)

/-- API-key extraction (auth.rs lines 48-59): the `Authorization` header with
an optional `Bearer ` prefix stripped, else the `x-api-key` header. The
`Option String` arguments model `headers().get(..).and_then(to_str().ok())`. -/
def extract_api_key (authorization x_api_key : Option String) : Option String :=
  match authorization with
  | some s => some (if strStartsWith s "Bearer " then strDropChars s 7 else s)
  | none => x_api_key

/-- Identity resolution for a present candidate key (auth.rs lines 62-90):
first the dynamic store, then — only when the store answers `Ok(None)` —
the legacy config key.  A store error (`Err`) only logs. -/
def resolve_identity (find_by_key : String → Except String (Option ApiKeyRecord))
    (legacy_api_key : String) (key_str : String) : Option AuthenticatedKey :=
  match find_by_key key_str with
  | Except.ok (some record) =>
      if record.enabled then some ⟨key_str, record.id, record.name⟩ else none
  | Except.ok none =>
      if key_str == legacy_api_key then
        some ⟨key_str, "legacy", "Legacy Config Key"⟩
      else none
  | Except.error _ => none

/-- `auth_middleware` (auth.rs lines 16-115).  `find_by_key` models the
dynamic credential store; `legacy_api_key` is `security.api_key`;
`effective_mode` is `security.effective_auth_mode()`. -/
def auth_middleware (find_by_key : String → Except String (Option ApiKeyRecord))
    (legacy_api_key : String) (effective_mode : ProxyAuthMode)
    (method path : String) (authorization x_api_key : Option String) : AuthResult :=
  if method == "OPTIONS" then AuthResult.allow none
  else if is_static_asset path then AuthResult.allow none
  else if path == "/oauth-callback" || strStartsWith path "/api/oauth/" then AuthResult.allow none
  else
    let api_key := extract_api_key authorization x_api_key
    let identity : Option AuthenticatedKey :=
      match api_key with
      | some key_str => resolve_identity find_by_key legacy_api_key key_str
      | none => none
    if matches_off effective_mode then AuthResult.allow identity
    else if matches_all_except_health effective_mode && path == "/healthz" then
      AuthResult.allow identity
    else
      match api_key with
      | none => AuthResult.unauthorized
      | some _ => if identity.isSome then AuthResult.allow identity else AuthResult.unauthorized

/-- A store whose lookup always finds a disabled record (for the C1 analysis). -/
def disabled_record_store : String → Except String (Option ApiKeyRecord) :=
  fun _ => Except.ok (some ⟨"dyn-1", "Disabled Key", false⟩)

/-- A store whose lookup always fails with an I/O error (for the C2 analysis). -/
def erroring_store : String → Except String (Option ApiKeyRecord) :=
  fun _ => Except.error "db io error"

end Auth

/-! ## `Upstream`: the upstream client (`src/proxy/upstream/client.rs`) -/

namespace Upstream

/-- Outcome of one `http_client.post(..).send().await` against one endpoint:
either a response with an HTTP status and a body, or a transport-level error
(connection refused, timeout, TLS...).  The network is modelled as a function
`send : String → HttpResult` from the endpoint base URL. -/
inductive HttpResult
  | resp (status : Nat) (body : String)
  | netErr (e : String)
deriving DecidableEq

/-- Result of `call_v1_internal`: `Ok(response)` (any HTTP status) or
`Err(message)`. -/
inductive CallOut
  | ok (status : Nat) (body : String)
  | err (msg : String)
deriving DecidableEq

/-- `reqwest::StatusCode::is_success()`: 2xx. -/
def is_success (status : Nat) : Bool := 200 ≤ status && status ≤ 299

/-- `reqwest::StatusCode::is_server_error()`: 5xx. -/
def is_server_error (status : Nat) : Bool := 500 ≤ status && status ≤ 599

/-- `should_try_next_endpoint` (client.rs lines 100-105): 429, 408, 404 or
any 5xx. -/
def should_try_next_endpoint (status : Nat) : Bool :=
  status == 429 || status == 408 || status == 404 || is_server_error status

/-- `promote_endpoint` (client.rs lines 65-80): remove the endpoint at
`successful_idx` and reinsert it at index 0; no-op for index 0 or an
out-of-range index. -/
def promote_endpoint (endpoints : List String) (successful_idx : Nat) : List String :=
  if successful_idx == 0 then endpoints
  else if h : successful_idx < endpoints.length then
    endpoints.get ⟨successful_idx, h⟩ :: endpoints.eraseIdx successful_idx
  else endpoints

/-- `build_url` (client.rs lines 85-91). -/
def build_url (base_url method : String) (query_string : Option String) : String :=
  match query_string with
  | some qs => base_url ++ ":" ++ method ++ "?" ++ qs
  | none => base_url ++ ":" ++ method

/-- The endpoint loop of `call_v1_internal` (client.rs lines 142-203):
structural recursion over the remaining endpoints of the snapshot (the Rust
`for (idx, base_url) in endpoints.iter().enumerate()`), carrying the
enumeration index `idx`, the snapshot's `endpoint_count`, the accumulated
`last_err`, and the shared order `shared` on which a promotion splices
(equal to the snapshot at loop entry; sequential model, no concurrent
writer).  Returns the call result together with the shared endpoint order
after the call. -/
def call_loop (send : String → HttpResult) (endpoint_count : Nat) (shared : List String) :
    List String → Nat → Option String → CallOut × List String
  | [], _, last_err => (CallOut.err (last_err.getD "All endpoints failed"), shared)
  | base_url :: rest, idx, _last_err =>
    let has_next := idx + 1 < endpoint_count
    match send base_url with
    | HttpResult.resp status body =>
      if is_success status then
        (CallOut.ok status body,
         if 0 < idx then promote_endpoint shared idx else shared)
      else if has_next && should_try_next_endpoint status then
        call_loop send endpoint_count shared rest (idx + 1)
          (some ("Upstream " ++ base_url ++ " returned " ++ toString status))
      else
        (CallOut.ok status body, shared)
    | HttpResult.netErr e =>
      let msg := "HTTP request failed at " ++ base_url ++ ": " ++ e
      if has_next then call_loop send endpoint_count shared rest (idx + 1) (some msg)
      else (CallOut.err msg, shared)

/-- `call_v1_internal` (client.rs lines 111-204): snapshot the shared order
once, then iterate it from index 0.  `send` models one HTTP POST per
endpoint (the method, payload and headers are fixed for the whole call, so
the outcome is a function of the endpoint). -/
def call_v1_internal (send : String → HttpResult) (endpoints : List String) :
    CallOut × List String :=
  call_loop send endpoints.length endpoints endpoints 0 none

/-- Result of `fetch_available_models`: parsed JSON body (kept abstract as the
raw body string here) or `Err(message)`. -/
inductive FetchOut
  | ok (body : String)
  | err (msg : String)
deriving DecidableEq

/-- The endpoint loop of `fetch_available_models` (client.rs lines 253-315),
same iteration-and-promotion scheme as `call_loop` but: the remote method is
fixed, a 2xx body is JSON-parsed (`parse_json` models `resp.json()`), and a
non-retryable HTTP failure returns `Err` rather than the response. -/
def fetch_loop (send : String → HttpResult) (parse_json : String → Option String)
    (endpoint_count : Nat) (shared : List String) :
    List String → Nat → Option String → FetchOut × List String
  | [], _, last_err => (FetchOut.err (last_err.getD "All endpoints failed"), shared)
  | base_url :: rest, idx, _last_err =>
    match send base_url with
    | HttpResult.resp status body =>
      if is_success status then
        let promoted := if 0 < idx then promote_endpoint shared idx else shared
        match parse_json body with
        | some json => (FetchOut.ok json, promoted)
        | none => (FetchOut.err "Parse json failed", promoted)
      else if idx + 1 < endpoint_count && should_try_next_endpoint status then
        fetch_loop send parse_json endpoint_count shared rest (idx + 1)
          (some ("Upstream error: " ++ toString status))
      else
        (FetchOut.err ("Upstream error: " ++ toString status), shared)
    | HttpResult.netErr e =>
      let msg := "Request failed at " ++ base_url ++ ": " ++ e
      if idx + 1 < endpoint_count then
        fetch_loop send parse_json endpoint_count shared rest (idx + 1) (some msg)
      else (FetchOut.err msg, shared)

/-- `fetch_available_models` (client.rs lines 229-316). -/
def fetch_available_models (send : String → HttpResult)
    (parse_json : String → Option String) (endpoints : List String) :
    FetchOut × List String :=
  fetch_loop send parse_json endpoints.length endpoints endpoints 0 none

/-- An attempt outcome on which the loops advance to the next endpoint:
either a transport error or a retryable HTTP status. -/
def advances : HttpResult → Bool
  | HttpResult.resp status _ => should_try_next_endpoint status
  | HttpResult.netErr _ => true

end Upstream

/-! ## `Monitor`: stream/usage monitor (`src/proxy/middleware/monitor.rs`) -/

namespace Monitor

/-- A `serde_json::Value`, as far as the monitor inspects it.  Numbers are
modelled as integers (token counts); `as_u64` rejects anything else. -/
inductive Json
  | null
  | bool (b : Bool)
  | num (n : Int)
  | str (s : String)
  | arr (elems : List Json)
  | obj (fields : List (String × Json))

/-- `Value::get(key)` on an object (first binding wins), `None` otherwise. -/
def jget : Json → String → Option Json
  | Json.obj fields, key => fields.lookup key
  | _, _ => none

/-- `Value::as_u64()`. -/
def as_u64 : Json → Option Nat
  | Json.num n => if 0 ≤ n then some n.toNat else none
  | _ => none

/-- Rust `Option::or`. -/
def opt_or (a b : Option Json) : Option Json :=
  match a with
  | some x => some x
  | none => b

/-- Token extraction from a `usage` object as written in the SSE branch
(monitor.rs lines 163-167): `prompt_tokens` falling back to `input_tokens`,
`completion_tokens` falling back to `output_tokens`, and `total_tokens`
recorded as output when both are absent. -/
def sse_usage_tokens (usage : Json) : Option Nat × Option Nat :=
  let input_tokens := (opt_or (jget usage "prompt_tokens") (jget usage "input_tokens")).bind as_u64
  let output_tokens :=
    (opt_or (jget usage "completion_tokens") (jget usage "output_tokens")).bind as_u64
  if input_tokens.isNone && output_tokens.isNone then
    (input_tokens, (jget usage "total_tokens").bind as_u64)
  else
    (input_tokens, output_tokens)

/-- Token extraction from a `usage` object as written in the buffered branch
(monitor.rs lines 203-207). -/
def buffered_usage_tokens (usage : Json) : Option Nat × Option Nat :=
  let input_tokens := (opt_or (jget usage "prompt_tokens") (jget usage "input_tokens")).bind as_u64
  let output_tokens :=
    (opt_or (jget usage "completion_tokens") (jget usage "output_tokens")).bind as_u64
  if input_tokens.isNone && output_tokens.isNone then
    (input_tokens, (jget usage "total_tokens").bind as_u64)
  else
    (input_tokens, output_tokens)

/-- The tail-window scan loop of the SSE branch (monitor.rs lines 158-172),
over an already-reversed list of lines: skip lines that do not start with
`"data: "` or do not contain `"usage"`, skip lines whose payload fails to
parse or has no `usage` field, and stop (`break`) at the first line that
yields a `usage` object.  `parse` models `serde_json::from_str`. -/
def scan_usage_lines (parse : String → Option Json) : List String → Option Nat × Option Nat
  | [] => (none, none)
  | line :: rest =>
    if strStartsWith line "data: " && strContains line "\"usage\"" then
      match parse (strTrim (String.mk (chDropDataPfx line.data))) with
      | some json =>
        match jget json "usage" with
        | some usage => sse_usage_tokens usage
        | none => scan_usage_lines parse rest
      | none => scan_usage_lines parse rest
    else scan_usage_lines parse rest

/-- What one tail-window line contributes, in isolation: `some counts` when it
is a usage-bearing event line, `none` otherwise (specification device for the
first-match characterization of `scan_usage_lines`). -/
def usage_of_line (parse : String → Option Json) (line : String) :
    Option (Option Nat × Option Nat) :=
  if strStartsWith line "data: " && strContains line "\"usage\"" then
    match parse (strTrim (String.mk (chDropDataPfx line.data))) with
    | some json => (jget json "usage").map sse_usage_tokens
    | none => none
  else none

/-- `ProxyRequestLog` (the fields built in monitor.rs lines 115-128).
`id`, `timestamp` and `duration` come from ambient effects (uuid, clock) and
are carried opaquely. -/
structure ProxyRequestLog where
  id : String
  timestamp : Int
  method : String
  url : String
  status : Nat
  duration : Nat
  model : Option String
  error : Option String
  request_body : Option String
  response_body : Option String
  input_tokens : Option Nat
  output_tokens : Option Nat
deriving DecidableEq

/-- One `record_usage(key, success, input_tokens, output_tokens)` call against
the credential store (the monitor's usage-attribution side effect). -/
structure UsageCall where
  key : String
  success : Bool
  input_tokens : Option Nat
  output_tokens : Option Nat
deriving DecidableEq

/-- `is_api_request` (monitor.rs line 24): a `/v1/`-prefixed URI outside the
`event_logging` sub-path is subject to usage attribution. -/
def is_api_request_of (uri : String) : Bool :=
  strStartsWith uri "/v1/" && !strContains uri "event_logging"

/-- Content-type dispatch of `monitor_middleware`
(monitor.rs lines 130, 196, 249). -/
inductive MonitorBranch
  | sse
  | buffered
  | passthrough
deriving DecidableEq

/-- Content-type dispatch of `monitor_middleware`: `text/event-stream` bodies
are teed and scanned, `application/json` / `text/*` bodies are buffered,
everything else passes through. -/
def monitor_branch (content_type : String) : MonitorBranch :=
  if strContains content_type "text/event-stream" then MonitorBranch.sse
  else if strContains content_type "application/json" || strContains content_type "text/" then
    MonitorBranch.buffered
  else MonitorBranch.passthrough

/-- One item of the upstream body stream: a chunk of bytes or a stream error
(`chunk_res` in monitor.rs line 141). -/
inductive ChunkResult
  | ok (chunk : List Nat)
  | err (e : String)
deriving DecidableEq

/-- The sliding tail-window update for one `Ok` chunk
(monitor.rs lines 143-149): keep only the most recent 8192 bytes. -/
def update_tail (tail chunk : List Nat) : List Nat :=
  if chunk.length > 8192 then chunk.drop (chunk.length - 8192)
  else
    let t := tail ++ chunk
    if t.length > 8192 then t.drop (t.length - 8192) else t

/-- The forwarding loop of the SSE branch (monitor.rs lines 141-155): every
chunk — `Ok` or `Err` — is sent through the channel in arrival order, while
`Ok` chunks additionally update the tail window.  Returns the sent sequence
and the final tail window. -/
def forward_stream : List ChunkResult → List Nat → List ChunkResult × List Nat
  | [], tail => ([], tail)
  | ChunkResult.ok chunk :: rest, tail =>
    let (sent, t) := forward_stream rest (update_tail tail chunk)
    (ChunkResult.ok chunk :: sent, t)
  | ChunkResult.err e :: rest, tail =>
    let (sent, t) := forward_stream rest tail
    (ChunkResult.err e :: sent, t)

/-- Outcome of the SSE branch: the chunk sequence delivered to the caller and
the detached task's log record and usage-attribution call. -/
structure SseOutcome where
  sent : List ChunkResult
  log : ProxyRequestLog
  usage_call : Option UsageCall
deriving DecidableEq

/-- The SSE branch of `monitor_middleware` (monitor.rs lines 130-195):
`response_body` is set to the stream placeholder, the body is forwarded
chunk-by-chunk while a bounded tail is kept, then — after the stream ends —
the tail is UTF-8-decoded (`decode` models `std::str::from_utf8`), its lines
are scanned most-recent-first for usage counts, a generic error is recorded
for error statuses, and usage is attributed.  `log0.status` is the upstream
response status captured at monitor.rs line 107. -/
def sse_branch (decode : List Nat → Option String) (parse : String → Option Json)
    (is_api_request : Bool) (auth : Option Auth.AuthenticatedKey)
    (log0 : ProxyRequestLog) (chunks : List ChunkResult) : SseOutcome :=
  let log1 := { log0 with response_body := some "[Stream Data]" }
  let fwd := forward_stream chunks []
  let counts :=
    match decode fwd.2 with
    | some full_tail => scan_usage_lines parse (rust_lines full_tail).reverse
    | none => (none, none)
  let log2 := { log1 with input_tokens := counts.1, output_tokens := counts.2 }
  let log3 :=
    if log2.status ≥ 400 then { log2 with error := some "Stream Error or Failed" } else log2
  let usage :=
    if is_api_request then
      auth.map (fun k => ⟨k.key, decide (log3.status < 400), log3.input_tokens, log3.output_tokens⟩)
    else none
  ⟨fwd.1, log3, usage⟩

/-- The byte ceiling of the buffered branch (`512 * 1024` in monitor.rs
line 198). -/
def capture_limit : Nat := 512 * 1024

/-- `axum::body::to_bytes(body, limit)`: the collected bytes, or an error when
the body exceeds the limit. -/
def to_bytes (limit : Nat) (body : List Nat) : Option (List Nat) :=
  if body.length > limit then none else some body

/-- Outcome of the buffered branch: status and body bytes handed back to the
caller, plus the log record and the usage-attribution call. -/
structure BufferedOutcome where
  status : Nat
  resp_body : List Nat
  log : ProxyRequestLog
  usage_call : Option UsageCall
deriving DecidableEq

/-- The buffered (`application/json` / `text/*`) branch of
`monitor_middleware` (monitor.rs lines 196-248).  On a body within the
ceiling: decode, parse, extract usage, store the body text (or a binary
placeholder), copy it to `error` for error statuses, attribute usage, and
hand the same bytes back.  On an oversized body: log a truncation marker,
attribute a failure with no token counts, and hand back an empty body under
the original status and headers.  `log0.status` is the upstream response
status. -/
def monitor_buffered (decode : List Nat → Option String) (parse : String → Option Json)
    (is_api_request : Bool) (auth : Option Auth.AuthenticatedKey)
    (log0 : ProxyRequestLog) (body : List Nat) : BufferedOutcome :=
  match to_bytes capture_limit body with
  | some bytes =>
    let log1 :=
      match decode bytes with
      | some s =>
        let counts :=
          match parse s with
          | some json =>
            match jget json "usage" with
            | some usage => buffered_usage_tokens usage
            | none => ((none : Option Nat), (none : Option Nat))
          | none => ((none : Option Nat), (none : Option Nat))
        { log0 with
            input_tokens := counts.1, output_tokens := counts.2, response_body := some s }
      | none => { log0 with response_body := some "[Binary Response Data]" }
    let log2 := if log1.status ≥ 400 then { log1 with error := log1.response_body } else log1
    let usage :=
      if is_api_request then
        auth.map (fun k =>
          ⟨k.key, decide (log2.status < 400), log2.input_tokens, log2.output_tokens⟩)
      else none
    ⟨log2.status, bytes, log2, usage⟩
  | none =>
    let log1 := { log0 with response_body := some "[Response too large]" }
    let usage :=
      if is_api_request then auth.map (fun k => ⟨k.key, false, none, none⟩) else none
    ⟨log1.status, [], log1, usage⟩

end Monitor

/-! ## `WebAuth`: web-UI session middleware (`src/proxy/middleware/web_auth.rs`) -/

namespace WebAuth

/-- `is_static_asset` (web_auth.rs lines 61-79).  Note: differs from the API
middleware's version — `.html` is excluded and three font extensions are
added. -/
def static_exts : List String :=
  ["css", "js", "png", "svg", "jpg", "jpeg", "webp", "ico", "woff", "woff2", "ttf"]

/-- `is_static_asset` (web_auth.rs lines 61-79). -/
def is_static_asset (path : String) : Bool :=
  if strEndsWith path ".html" then false
  else if path == "/favicon.ico" then true
  else if strStartsWith path "/assets/" then true
  else static_exts.contains (last_dot_segment path)

/-- `is_protected_path` (web_auth.rs lines 17-58). -/
def is_protected_path (path : String) : Bool :=
  if strStartsWith path "/api/" then
    if strStartsWith path "/api/auth/" then false
    else if strStartsWith path "/api/oauth/" then false
    else true
  else if is_static_asset path then false
  else if path == "/login.html" || path == "/login" then false
  else if path == "/oauth-callback" then false
  else if path == "/healthz" then false
  else if strStartsWith path "/v1/" || strStartsWith path "/v1beta/" then false
  else true

/-- `extract_session_token` (web_auth.rs lines 82-94): the first
`;`-separated cookie, after trimming, that starts with
`antiproxy_session=`.  The `Option String` argument models
`headers().get(COOKIE)` followed by `to_str().ok()`. -/
def extract_session_token (cookie_header : Option String) : Option String :=
  match cookie_header with
  | none => none
  | some s =>
    ((strSplit ';' s).map strTrim).findSome? (fun c =>
      if strStartsWith c "antiproxy_session=" then some (strDropChars c 18) else none)

/-- Observable events of `web_auth_middleware`, in execution order: session
validation, session refresh, running the downstream handler, the structured
401 response, the redirect to the login page. -/
inductive Event
  | validate (token : String) (ok : Bool)
  | refresh (token : String)
  | runHandler
  | respondUnauthorized
  | redirectLogin
deriving DecidableEq

/-- `web_auth_middleware` (web_auth.rs lines 97-143), as the ordered trace of
its session-store interactions and its outcome.  `validate` models
`session_manager.validate_session`. -/
def web_auth_middleware (validate : String → Bool) (path : String)
    (cookie_header : Option String) : List Event :=
  if !is_protected_path path then [Event.runHandler]
  else
    match extract_session_token cookie_header with
    | some token =>
      if validate token then
        [Event.validate token true, Event.refresh token, Event.runHandler]
      else if strStartsWith path "/api/" then
        [Event.validate token false, Event.respondUnauthorized]
      else
        [Event.validate token false, Event.redirectLogin]
    | none =>
      if strStartsWith path "/api/" then [Event.respondUnauthorized]
      else [Event.redirectLogin]

end WebAuth

/-! ## Theorems -/

/-- Claim C1: "For every request carrying a candidate credential whose secret
exactly matches a dynamic-store record with enabled = false, the Credential
Resolver treats it as no match and still compares the candidate against the
legacy static secret, so that if the candidate also equals the legacy secret a
Resolved Identity {id: "legacy", name: "Legacy Config Key"} is attached to the
request."  COUNTEREXAMPLE: with a store whose lookup finds a disabled record
and a legacy secret equal to the candidate, `auth_middleware` attaches no
identity at all — the legacy tier is never consulted in the `Ok(Some)` arm
(auth.rs lines 65-74), so no legacy identity is attached. -/
theorem C1_counterexample :
    Auth.auth_middleware Auth.disabled_record_store "sharedsecret" Auth.ProxyAuthMode.Off
      "POST" "/v1/chat" (some "sharedsecret") none = Auth.AuthResult.allow none ∧
    Auth.auth_middleware Auth.disabled_record_store "sharedsecret" Auth.ProxyAuthMode.Off
      "POST" "/v1/chat" (some "sharedsecret") none ≠
      Auth.AuthResult.allow (some ⟨"sharedsecret", "legacy", "Legacy Config Key"⟩) := by
  decide

/-- Claim C1 (amended): for every request carrying a candidate credential whose
secret matches a dynamic-store record with enabled = false, the Credential
Resolver treats it as no match WITHOUT consulting the legacy tier: no identity
is attached even when the candidate equals the legacy secret, and the resolver
does not hard-fail by itself — the request proceeds (identity-less) under Off
mode and is rejected under Enforced mode. -/
theorem C1_disabled_key_attaches_no_identity
    (find_by_key : String → Except String (Option Auth.ApiKeyRecord))
    (legacy_api_key method path key_str : String) (record : Auth.ApiKeyRecord)
    (hmeth : (method == "OPTIONS") = false)
    (hstatic : Auth.is_static_asset path = false)
    (hoauth : (path == "/oauth-callback" || strStartsWith path "/api/oauth/") = false)
    (hfind : find_by_key key_str = Except.ok (some record))
    (hdisabled : record.enabled = false) :
    Auth.resolve_identity find_by_key legacy_api_key key_str = none ∧
    Auth.auth_middleware find_by_key legacy_api_key Auth.ProxyAuthMode.Off method path
      none (some key_str) = Auth.AuthResult.allow none ∧
    Auth.auth_middleware find_by_key legacy_api_key Auth.ProxyAuthMode.Enforced method path
      none (some key_str) = Auth.AuthResult.unauthorized := by
  have hid : Auth.resolve_identity find_by_key legacy_api_key key_str = none := by
    unfold Auth.resolve_identity
    rw [hfind]
    simp [hdisabled]
  refine ⟨hid, ?_, ?_⟩ <;>
    simp [Auth.auth_middleware, Auth.extract_api_key, Auth.matches_off,
      Auth.matches_all_except_health, hmeth, hstatic, hoauth, hid]

/-- Witness for `C1_disabled_key_attaches_no_identity` at the concrete input of
`C1_counterexample`. -/
theorem C1_witness :
    Auth.resolve_identity Auth.disabled_record_store "sharedsecret" "sharedsecret" = none ∧
    Auth.auth_middleware Auth.disabled_record_store "sharedsecret" Auth.ProxyAuthMode.Off
      "POST" "/v1/chat" none (some "sharedsecret") = Auth.AuthResult.allow none ∧
    Auth.auth_middleware Auth.disabled_record_store "sharedsecret" Auth.ProxyAuthMode.Enforced
      "POST" "/v1/chat" none (some "sharedsecret") = Auth.AuthResult.unauthorized :=
  C1_disabled_key_attaches_no_identity Auth.disabled_record_store "sharedsecret" "POST"
    "/v1/chat" "sharedsecret" ⟨"dyn-1", "Disabled Key", false⟩
    (by decide) (by decide) (by decide) rfl rfl

/-- Claim C2: "For every request with a candidate credential, if the dynamic
credential-store lookup fails with an error, resolution degrades to the legacy
tier only: the candidate is still compared against the legacy static secret
and, on equality, a legacy identity is attached, so the store failure never by
itself causes the request to be rejected (in particular, under Enforced mode a
request whose candidate equals the legacy secret is not rejected just because
the store errored)."  COUNTEREXAMPLE: with a store whose lookup errors and a
candidate equal to the legacy secret, the `Err` arm (auth.rs lines 86-88) only
logs — no legacy comparison happens, no identity is attached, and under
Enforced mode the request IS rejected with 401. -/
theorem C2_counterexample :
    Auth.resolve_identity Auth.erroring_store "legacykey" "legacykey" = none ∧
    Auth.auth_middleware Auth.erroring_store "legacykey" Auth.ProxyAuthMode.Enforced
      "POST" "/v1/chat" (some "legacykey") none = Auth.AuthResult.unauthorized := by
  decide

/-- Claim C2 (amended): if the dynamic credential-store lookup fails with an
error, no legacy fallback occurs: no identity is attached even when the
candidate equals the legacy secret.  The resolver itself does not fail the
request — under Off mode it still proceeds — but under Enforced mode the
request is rejected for lack of a resolved identity, even when the candidate
equals the legacy secret. -/
theorem C2_store_error_no_legacy_fallback
    (find_by_key : String → Except String (Option Auth.ApiKeyRecord))
    (legacy_api_key method path key_str err_msg : String)
    (hmeth : (method == "OPTIONS") = false)
    (hstatic : Auth.is_static_asset path = false)
    (hoauth : (path == "/oauth-callback" || strStartsWith path "/api/oauth/") = false)
    (hfind : find_by_key key_str = Except.error err_msg) :
    Auth.resolve_identity find_by_key legacy_api_key key_str = none ∧
    Auth.auth_middleware find_by_key legacy_api_key Auth.ProxyAuthMode.Off method path
      none (some key_str) = Auth.AuthResult.allow none ∧
    Auth.auth_middleware find_by_key legacy_api_key Auth.ProxyAuthMode.Enforced method path
      none (some key_str) = Auth.AuthResult.unauthorized := by
  have hid : Auth.resolve_identity find_by_key legacy_api_key key_str = none := by
    unfold Auth.resolve_identity
    rw [hfind]
  refine ⟨hid, ?_, ?_⟩ <;>
    simp [Auth.auth_middleware, Auth.extract_api_key, Auth.matches_off,
      Auth.matches_all_except_health, hmeth, hstatic, hoauth, hid]

/-- Witness for `C2_store_error_no_legacy_fallback` at the concrete input of
`C2_counterexample`. -/
theorem C2_witness :
    Auth.resolve_identity Auth.erroring_store "legacykey" "legacykey" = none ∧
    Auth.auth_middleware Auth.erroring_store "legacykey" Auth.ProxyAuthMode.Off
      "POST" "/v1/chat" none (some "legacykey") = Auth.AuthResult.allow none ∧
    Auth.auth_middleware Auth.erroring_store "legacykey" Auth.ProxyAuthMode.Enforced
      "POST" "/v1/chat" none (some "legacykey") = Auth.AuthResult.unauthorized :=
  C2_store_error_no_legacy_fallback Auth.erroring_store "legacykey" "POST" "/v1/chat"
    "legacykey" "db io error" (by decide) (by decide) (by decide) rfl

/-- Claim C9: for every request whose path is recognized as a static asset
(final '.'-separated segment in css/js/png/svg/jpg/jpeg/webp/ico, or an exact
match of /, /index.html, /favicon.ico, or an /assets/ prefix), the API-key
middleware forwards the request with no credential check in every auth mode —
including Enforced — and attaches no identity; in particular the API-shaped
path /v1/anything.js bypasses credential authentication entirely. -/
theorem C9_static_asset_bypass
    (find_by_key : String → Except String (Option Auth.ApiKeyRecord))
    (legacy_api_key : String) (mode : Auth.ProxyAuthMode) (method path : String)
    (authorization x_api_key : Option String)
    (hstatic : Auth.is_static_asset path = true) :
    Auth.auth_middleware find_by_key legacy_api_key mode method path authorization x_api_key
      = Auth.AuthResult.allow none ∧
    Auth.is_static_asset "/v1/anything.js" = true := by
  constructor
  · cases hmeth : (method == "OPTIONS") <;>
      simp [Auth.auth_middleware, hmeth, hstatic]
  · decide

/-- Witness for `C9_static_asset_bypass`: the path /v1/anything.js is forwarded
with no identity under Enforced mode even with a bogus credential. -/
theorem C9_witness :
    Auth.auth_middleware (fun _ => Except.ok none) "k" Auth.ProxyAuthMode.Enforced "POST"
      "/v1/anything.js" (some "bogus") none = Auth.AuthResult.allow none ∧
    Auth.is_static_asset "/v1/anything.js" = true :=
  C9_static_asset_bypass (fun _ => Except.ok none) "k" Auth.ProxyAuthMode.Enforced "POST"
    "/v1/anything.js" (some "bogus") none (by decide)

/-- Claim C8: for every request to a session-protected path: if the session
cookie is present and validates, the session's expiry is refreshed before the
protected handler runs (the trace is exactly validate-refresh-handler); if the
cookie is missing or fails validation, no refresh ever occurs, the handler
never runs, and the request is answered as unauthenticated (a 401 or a
redirect to the login page). -/
theorem C8_validate_refresh_handler_order
    (validate : String → Bool) (path : String) (cookie_header : Option String)
    (hprot : WebAuth.is_protected_path path = true) :
    (∀ token, WebAuth.extract_session_token cookie_header = some token →
      validate token = true →
      WebAuth.web_auth_middleware validate path cookie_header
        = [WebAuth.Event.validate token true, WebAuth.Event.refresh token,
           WebAuth.Event.runHandler]) ∧
    (∀ token, WebAuth.extract_session_token cookie_header = some token →
      validate token = false →
      (∀ t, WebAuth.Event.refresh t ∉ WebAuth.web_auth_middleware validate path cookie_header) ∧
      WebAuth.Event.runHandler ∉ WebAuth.web_auth_middleware validate path cookie_header ∧
      ((WebAuth.web_auth_middleware validate path cookie_header).getLast?
          = some WebAuth.Event.respondUnauthorized ∨
        (WebAuth.web_auth_middleware validate path cookie_header).getLast?
          = some WebAuth.Event.redirectLogin)) ∧
    (WebAuth.extract_session_token cookie_header = none →
      (∀ t, WebAuth.Event.refresh t ∉ WebAuth.web_auth_middleware validate path cookie_header) ∧
      WebAuth.Event.runHandler ∉ WebAuth.web_auth_middleware validate path cookie_header ∧
      ((WebAuth.web_auth_middleware validate path cookie_header).getLast?
          = some WebAuth.Event.respondUnauthorized ∨
        (WebAuth.web_auth_middleware validate path cookie_header).getLast?
          = some WebAuth.Event.redirectLogin)) := by
  refine ⟨?_, ?_, ?_⟩
  · intro token htok hval
    simp [WebAuth.web_auth_middleware, hprot, htok, hval]
  · intro token htok hval
    cases hapi : strStartsWith path "/api/" <;>
      simp [WebAuth.web_auth_middleware, hprot, htok, hval, hapi]
  · intro htok
    cases hapi : strStartsWith path "/api/" <;>
      simp [WebAuth.web_auth_middleware, hprot, htok, hapi]

/-- Witness for `C8_validate_refresh_handler_order`: a valid session cookie on
the protected path `/` yields exactly validate, refresh, then the handler. -/
theorem C8_witness :
    WebAuth.web_auth_middleware (fun _ => true) "/" (some "antiproxy_session=tok")
      = [WebAuth.Event.validate "tok" true, WebAuth.Event.refresh "tok",
         WebAuth.Event.runHandler] :=
  (C8_validate_refresh_handler_order (fun _ => true) "/" (some "antiproxy_session=tok")
    (by decide)).1 "tok" (by decide) rfl

/-- The SSE forwarding loop sends every chunk — `Ok` or `Err` — onward in
arrival order, whatever the tail window holds. -/
theorem forward_stream_sent (chunks : List Monitor.ChunkResult) :
    ∀ tail, (Monitor.forward_stream chunks tail).1 = chunks := by
  induction chunks with
  | nil => intro tail; rfl
  | cons c rest ih =>
    intro tail
    cases c with
    | ok chunk => simp [Monitor.forward_stream, ih]
    | err e => simp [Monitor.forward_stream, ih]

/-- Claim C5: for every response dispatched to the `text/event-stream` branch,
the sequence of body chunks delivered to the caller through the forwarding
channel is identical — errors included — to the sequence produced by the
upstream response stream, for every UTF-8 decode outcome and every JSON parse
function, i.e. regardless of whether usage extraction from the tail window
succeeds or fails. -/
theorem C5_sse_bytes_unaltered
    (content_type : String) (decode : List Nat → Option String)
    (parse : String → Option Monitor.Json) (is_api_request : Bool)
    (auth : Option Auth.AuthenticatedKey) (log0 : Monitor.ProxyRequestLog)
    (chunks : List Monitor.ChunkResult)
    (_hsse : Monitor.monitor_branch content_type = Monitor.MonitorBranch.sse) :
    (Monitor.sse_branch decode parse is_api_request auth log0 chunks).sent = chunks := by
  simp [Monitor.sse_branch, forward_stream_sent]

/-- Witness for `C5_sse_bytes_unaltered`: an SSE response whose tail fails to
decode still forwards both chunks and the stream error verbatim. -/
theorem C5_witness :
    (Monitor.sse_branch (fun _ => none) (fun _ => none) true none
        ⟨"id", 0, "POST", "/v1/chat", 200, 5, none, none, none, none, none, none⟩
        [Monitor.ChunkResult.ok [100, 97], Monitor.ChunkResult.err "reset"]).sent
      = [Monitor.ChunkResult.ok [100, 97], Monitor.ChunkResult.err "reset"] :=
  C5_sse_bytes_unaltered "text/event-stream" (fun _ => none) (fun _ => none) true none
    ⟨"id", 0, "POST", "/v1/chat", 200, 5, none, none, none, none, none, none⟩
    [Monitor.ChunkResult.ok [100, 97], Monitor.ChunkResult.err "reset"] (by decide)

/-- Claim C7: for every buffered text/JSON response whose body exceeds the
512 KiB capture ceiling, the request does not fail with a caller-visible
error: the caller receives the original status (headers and status are reused
from the response parts) with an empty body substitute, and the log record
stores the truncation marker "[Response too large]" instead of the body. -/
theorem C7_oversized_body_empty_substitute
    (decode : List Nat → Option String) (parse : String → Option Monitor.Json)
    (is_api_request : Bool) (auth : Option Auth.AuthenticatedKey)
    (log0 : Monitor.ProxyRequestLog) (body : List Nat)
    (hbig : body.length > Monitor.capture_limit) :
    (Monitor.monitor_buffered decode parse is_api_request auth log0 body).status
        = log0.status ∧
    (Monitor.monitor_buffered decode parse is_api_request auth log0 body).resp_body = [] ∧
    (Monitor.monitor_buffered decode parse is_api_request auth log0 body).log.response_body
        = some "[Response too large]" := by
  simp [Monitor.monitor_buffered, Monitor.to_bytes, hbig]

/-- Witness for `C7_oversized_body_empty_substitute` on a 512 KiB + 1 body. -/
theorem C7_witness :
    (Monitor.monitor_buffered (fun _ => none) (fun _ => none) true none
        ⟨"id", 0, "POST", "/v1/chat", 200, 5, none, none, none, none, none, none⟩
        (List.replicate (512 * 1024 + 1) 0)).status = 200 ∧
    (Monitor.monitor_buffered (fun _ => none) (fun _ => none) true none
        ⟨"id", 0, "POST", "/v1/chat", 200, 5, none, none, none, none, none, none⟩
        (List.replicate (512 * 1024 + 1) 0)).resp_body = [] ∧
    (Monitor.monitor_buffered (fun _ => none) (fun _ => none) true none
        ⟨"id", 0, "POST", "/v1/chat", 200, 5, none, none, none, none, none, none⟩
        (List.replicate (512 * 1024 + 1) 0)).log.response_body
      = some "[Response too large]" :=
  C7_oversized_body_empty_substitute (fun _ => none) (fun _ => none) true none
    ⟨"id", 0, "POST", "/v1/chat", 200, 5, none, none, none, none, none, none⟩
    (List.replicate (512 * 1024 + 1) 0) (by rw [List.length_replicate]; decide)

/-- Claim C10: when a buffered response body exceeds the 512 KiB capture
ceiling on a monitored API-prefixed request (`/v1/` URI outside
`event_logging`) carrying a resolved identity, usage is recorded against that
credential with success = false and no token counts — for EVERY upstream
status, in particular 2xx, so an oversized successful response increments the
credential's failure count. -/
theorem C10_oversized_records_failure
    (decode : List Nat → Option String) (parse : String → Option Monitor.Json)
    (uri : String) (k : Auth.AuthenticatedKey)
    (log0 : Monitor.ProxyRequestLog) (body : List Nat)
    (hapi : Monitor.is_api_request_of uri = true)
    (hbig : body.length > Monitor.capture_limit) :
    (Monitor.monitor_buffered decode parse (Monitor.is_api_request_of uri) (some k)
        log0 body).usage_call = some ⟨k.key, false, none, none⟩ := by
  simp [Monitor.monitor_buffered, Monitor.to_bytes, hbig, hapi]

/-- Witness for `C10_oversized_records_failure`: an oversized body on a 200
response of `/v1/chat` records a failure with no token counts. -/
theorem C10_witness :
    (Monitor.monitor_buffered (fun _ => none) (fun _ => none)
        (Monitor.is_api_request_of "/v1/chat") (some ⟨"sk-abc", "key-1", "Key One"⟩)
        ⟨"id", 0, "POST", "/v1/chat", 200, 5, none, none, none, none, none, none⟩
        (List.replicate (512 * 1024 + 1) 0)).usage_call
      = some ⟨"sk-abc", false, none, none⟩ :=
  C10_oversized_records_failure (fun _ => none) (fun _ => none) "/v1/chat"
    ⟨"sk-abc", "key-1", "Key One"⟩
    ⟨"id", 0, "POST", "/v1/chat", 200, 5, none, none, none, none, none, none⟩
    (List.replicate (512 * 1024 + 1) 0) (by decide) (by rw [List.length_replicate]; decide)

/-- A retryable status (429, 408, 404 or 5xx) is never a 2xx status. -/
theorem retryable_not_success (status : Nat)
    (h : Upstream.should_try_next_endpoint status = true) :
    Upstream.is_success status = false := by
  cases hs : Upstream.is_success status with
  | false => rfl
  | true =>
    exfalso
    simp only [Upstream.is_success, Bool.and_eq_true, decide_eq_true_eq] at hs
    simp only [Upstream.should_try_next_endpoint, Upstream.is_server_error, Bool.or_eq_true,
      beq_iff_eq, Bool.and_eq_true, decide_eq_true_eq] at h
    omega

/-- `promote_endpoint` at an in-range non-zero index moves that element to the
front and keeps every other element in its relative order. -/
theorem promote_endpoint_moves_to_front (l : List String) (k : Nat) (hk0 : 0 < k)
    (hk : k < l.length) :
    Upstream.promote_endpoint l k = l.get ⟨k, hk⟩ :: (l.take k ++ l.drop (k + 1)) := by
  unfold Upstream.promote_endpoint
  rw [if_neg (by simp [hk0.ne']), dif_pos hk, List.eraseIdx_eq_take_drop_succ]

/-- If every endpoint of the snapshot before index `k` yields a retryable
outcome and the one at `k` returns 2xx, then `call_loop` started anywhere at
or before `k` returns that response and promotes index `k` of the shared
order. -/
theorem call_loop_first_success (send : String → Upstream.HttpResult)
    (snapshot shared : List String) (k : Nat) (hk : k < snapshot.length)
    (hadv : ∀ i, i < k → ∀ h : i < snapshot.length,
      Upstream.advances (send (snapshot.get ⟨i, h⟩)) = true)
    (s : Nat) (b : String)
    (hsend : send (snapshot.get ⟨k, hk⟩) = Upstream.HttpResult.resp s b)
    (hsucc : Upstream.is_success s = true) :
    ∀ n j, j ≤ k → k - j = n → ∀ last_err,
      Upstream.call_loop send snapshot.length shared (snapshot.drop j) j last_err
        = (Upstream.CallOut.ok s b,
           if 0 < k then Upstream.promote_endpoint shared k else shared) := by
  intro n
  induction n with
  | zero =>
    intro j hj hn last_err
    have hjk : j = k := by omega
    subst hjk
    rw [List.drop_eq_get_cons hk]
    simp only [Upstream.call_loop]
    rw [hsend]
    simp [hsucc]
  | succ n ih =>
    intro j hj hn last_err
    have hjk : j < k := by omega
    have hjlen : j < snapshot.length := by omega
    have hnext : j + 1 < snapshot.length := by omega
    have hadvj := hadv j hjk hjlen
    rw [List.drop_eq_get_cons hjlen]
    simp only [Upstream.call_loop]
    cases hsj : send (snapshot.get ⟨j, hjlen⟩) with
    | resp status body =>
      rw [hsj] at hadvj
      simp only [Upstream.advances] at hadvj
      have hns : Upstream.is_success status = false := retryable_not_success status hadvj
      simp [hns, hadvj, hnext]
      exact ih (j + 1) (by omega) (by omega) _
    | netErr e =>
      simp [hnext]
      exact ih (j + 1) (by omega) (by omega) _

/-- The `fetch_available_models` analogue of `call_loop_first_success`: the
shared order after the loop is the promotion of index `k`, whatever the JSON
parse outcome. -/
theorem fetch_loop_first_success (send : String → Upstream.HttpResult)
    (parse_json : String → Option String)
    (snapshot shared : List String) (k : Nat) (hk : k < snapshot.length)
    (hadv : ∀ i, i < k → ∀ h : i < snapshot.length,
      Upstream.advances (send (snapshot.get ⟨i, h⟩)) = true)
    (s : Nat) (b : String)
    (hsend : send (snapshot.get ⟨k, hk⟩) = Upstream.HttpResult.resp s b)
    (hsucc : Upstream.is_success s = true) :
    ∀ n j, j ≤ k → k - j = n → ∀ last_err,
      (Upstream.fetch_loop send parse_json snapshot.length shared (snapshot.drop j) j
          last_err).2
        = if 0 < k then Upstream.promote_endpoint shared k else shared := by
  intro n
  induction n with
  | zero =>
    intro j hj hn last_err
    have hjk : j = k := by omega
    subst hjk
    rw [List.drop_eq_get_cons hk]
    simp only [Upstream.fetch_loop]
    rw [hsend]
    cases hp : parse_json b <;> simp [hsucc, hp]
  | succ n ih =>
    intro j hj hn last_err
    have hjk : j < k := by omega
    have hjlen : j < snapshot.length := by omega
    have hnext : j + 1 < snapshot.length := by omega
    have hadvj := hadv j hjk hjlen
    rw [List.drop_eq_get_cons hjlen]
    simp only [Upstream.fetch_loop]
    cases hsj : send (snapshot.get ⟨j, hjlen⟩) with
    | resp status body =>
      rw [hsj] at hadvj
      simp only [Upstream.advances] at hadvj
      have hns : Upstream.is_success status = false := retryable_not_success status hadvj
      simp [hns, hadvj, hnext]
      exact ih (j + 1) (by omega) (by omega) _
    | netErr e =>
      simp [hnext]
      exact ih (j + 1) (by omega) (by omega) _

/-- Claim C3: for every upstream call in which the endpoint at snapshot index
k, with k > 0, is the first to return a 2xx response (every earlier endpoint
yields a transport error or a retryable status), after the call the shared
endpoint order has that endpoint at index 0 and the relative order of all
other endpoints is preserved; this holds for both `call_v1_internal` and
`fetch_available_models`, which share the promotion state. -/
theorem C3_first_success_promoted_to_front (send : String → Upstream.HttpResult)
    (parse_json : String → Option String) (snapshot : List String) (k : Nat)
    (hk0 : 0 < k) (hk : k < snapshot.length)
    (hadv : ∀ i, i < k → ∀ h : i < snapshot.length,
      Upstream.advances (send (snapshot.get ⟨i, h⟩)) = true)
    (s : Nat) (b : String)
    (hsend : send (snapshot.get ⟨k, hk⟩) = Upstream.HttpResult.resp s b)
    (hsucc : Upstream.is_success s = true) :
    (Upstream.call_v1_internal send snapshot).2
        = snapshot.get ⟨k, hk⟩ :: (snapshot.take k ++ snapshot.drop (k + 1)) ∧
    (Upstream.fetch_available_models send parse_json snapshot).2
        = snapshot.get ⟨k, hk⟩ :: (snapshot.take k ++ snapshot.drop (k + 1)) := by
  constructor
  · have h1 := call_loop_first_success send snapshot snapshot k hk hadv s b hsend hsucc
      (k - 0) 0 (Nat.zero_le k) rfl none
    rw [List.drop_zero] at h1
    unfold Upstream.call_v1_internal
    rw [h1, if_pos hk0, promote_endpoint_moves_to_front snapshot k hk0 hk]
  · have h1 := fetch_loop_first_success send parse_json snapshot snapshot k hk hadv s b
      hsend hsucc (k - 0) 0 (Nat.zero_le k) rfl none
    rw [List.drop_zero] at h1
    unfold Upstream.fetch_available_models
    rw [h1, if_pos hk0, promote_endpoint_moves_to_front snapshot k hk0 hk]

/-- The network of the spec's scenario: endpoint "A" rate-limited with 429,
endpoint "B" succeeding with 200. -/
def scenario_send : String → Upstream.HttpResult :=
  fun e => if e == "A" then Upstream.HttpResult.resp 429 "" else Upstream.HttpResult.resp 200 "ok"

/-- Witness for `C3_first_success_promoted_to_front`: with order [A, B], A
returning 429 and B returning 200, both operations leave the shared order
[B, A]. -/
theorem C3_witness :
    (Upstream.call_v1_internal scenario_send ["A", "B"]).2 = ["B", "A"] ∧
    (Upstream.fetch_available_models scenario_send (fun s => some s) ["A", "B"]).2
      = ["B", "A"] := by
  have h := C3_first_success_promoted_to_front scenario_send (fun s => some s) ["A", "B"] 1
    (by decide) (by decide)
    (by
      intro i hi h
      have hi0 : i = 0 := by omega
      subst hi0
      show Upstream.advances (scenario_send "A") = true
      decide)
    200 "ok" rfl (by decide)
  simpa using h

/-- Claim C4: during one `call_v1_internal` invocation, for the endpoint
attempted at position `idx` of the snapshot: a 2xx response is returned
immediately (promoting a non-primary endpoint); a response whose status is
retryable (429, 408, 404 or any 5xx — `should_try_next_endpoint`) causes
advancing to the next endpoint when one remains; and any other non-2xx
status, or a retryable status on the last remaining endpoint, is returned to
the caller as-is (`CallOut.ok` with the real upstream status and body — no
synthetic error is substituted). -/
theorem C4_retry_classification (send : String → Upstream.HttpResult)
    (endpoint_count : Nat) (shared : List String) (base_url : String)
    (rest : List String) (idx : Nat) (last_err : Option String)
    (s : Nat) (b : String) (hsend : send base_url = Upstream.HttpResult.resp s b) :
    (Upstream.is_success s = true →
      Upstream.call_loop send endpoint_count shared (base_url :: rest) idx last_err
        = (Upstream.CallOut.ok s b,
           if 0 < idx then Upstream.promote_endpoint shared idx else shared)) ∧
    (Upstream.is_success s = false → Upstream.should_try_next_endpoint s = true →
      idx + 1 < endpoint_count →
      Upstream.call_loop send endpoint_count shared (base_url :: rest) idx last_err
        = Upstream.call_loop send endpoint_count shared rest (idx + 1)
            (some ("Upstream " ++ base_url ++ " returned " ++ toString s))) ∧
    (Upstream.is_success s = false →
      (Upstream.should_try_next_endpoint s = false ∨ ¬(idx + 1 < endpoint_count)) →
      Upstream.call_loop send endpoint_count shared (base_url :: rest) idx last_err
        = (Upstream.CallOut.ok s b, shared)) := by
  refine ⟨?_, ?_, ?_⟩
  · intro hsucc
    simp [Upstream.call_loop, hsend, hsucc]
  · intro hns hretry hnext
    simp [Upstream.call_loop, hsend, hns, hretry, hnext]
  · intro hns hlast
    cases hlast with
    | inl hnr => simp [Upstream.call_loop, hsend, hns, hnr]
    | inr hnn => simp [Upstream.call_loop, hsend, hns, hnn]

/-- Witness for `C4_retry_classification`: endpoint "A" of [A, B] returns 429
with one endpoint remaining, so the loop advances to "B" carrying the real
status in the recorded error. -/
theorem C4_witness :
    Upstream.call_loop scenario_send 2 ["A", "B"] ["A", "B"] 0 none
      = Upstream.call_loop scenario_send 2 ["A", "B"] ["B"] 1
          (some ("Upstream " ++ "A" ++ " returned " ++ toString 429)) :=
  (C4_retry_classification scenario_send 2 ["A", "B"] "A" ["B"] 0 none 429 "" rfl).2.1
    (by decide) (by decide) (by decide)

/-- The tail-window scan is a first-match search: it returns what the first
(in scan order) usage-bearing line yields, and the default (no counts) when
no line qualifies. -/
theorem scan_usage_lines_first_match (parse : String → Option Monitor.Json) :
    ∀ lines : List String,
      Monitor.scan_usage_lines parse lines
        = (lines.findSome? (Monitor.usage_of_line parse)).getD (none, none) := by
  intro lines
  induction lines with
  | nil => rfl
  | cons line rest ih =>
    simp only [Monitor.scan_usage_lines, Monitor.usage_of_line, List.findSome?_cons]
    cases hc : (strStartsWith line "data: " && strContains line "\"usage\"") with
    | false => simp [hc, ih]
    | true =>
      cases hp : parse (strTrim (String.mk (chDropDataPfx line.data))) with
      | none => simp [hc, hp, ih]
      | some json =>
        cases hu : Monitor.jget json "usage" with
        | none => simp [hc, hp, hu, ih]
        | some usage => simp [hc, hp, hu]

/-- Claim C6: usage token extraction is the same partial function in the SSE
and buffered paths (prompt/input and completion/output key fallbacks, with
total_tokens recorded as output when both are absent); the SSE tail window is
scanned most-recent-line-first, stopping at the first usage-bearing event
line (a first-match search over the reversed line list); and a buffered body
`{"usage":{"total_tokens":42}}` yields output_tokens = 42 and no
input_tokens in the log record. -/
theorem C6_usage_extraction_uniform
    (parse : String → Option Monitor.Json) (full_tail : String)
    (decode : List Nat → Option String) (body : List Nat) (body_str : String)
    (is_api_request : Bool) (auth : Option Auth.AuthenticatedKey)
    (log0 : Monitor.ProxyRequestLog)
    (hsmall : ¬(body.length > Monitor.capture_limit))
    (hdecode : decode body = some body_str)
    (hparse : parse body_str = some (Monitor.Json.obj
      [("usage", Monitor.Json.obj [("total_tokens", Monitor.Json.num 42)])])) :
    (∀ usage, Monitor.sse_usage_tokens usage = Monitor.buffered_usage_tokens usage) ∧
    (Monitor.scan_usage_lines parse (rust_lines full_tail).reverse
      = ((rust_lines full_tail).reverse.findSome? (Monitor.usage_of_line parse)).getD
          (none, none)) ∧
    (Monitor.monitor_buffered decode parse is_api_request auth log0 body).log.input_tokens
        = none ∧
    (Monitor.monitor_buffered decode parse is_api_request auth log0 body).log.output_tokens
        = some 42 := by
  have hb : Monitor.to_bytes Monitor.capture_limit body = some body := by
    unfold Monitor.to_bytes
    rw [if_neg hsmall]
  refine ⟨fun usage => rfl, scan_usage_lines_first_match parse _, ?_, ?_⟩ <;>
    · simp only [Monitor.monitor_buffered, hb, hdecode, hparse]
      split <;> rfl

/-- The JSON body of the 42-token scenario. -/
def c6_body_str : String := "\x7b\"usage\":\x7b\"total_tokens\":42\x7d\x7d"

/-- A `serde_json::from_str` model that parses the 42-token scenario body. -/
def c6_parse : String → Option Monitor.Json :=
  fun s =>
    if s == c6_body_str then
      some (Monitor.Json.obj [("usage", Monitor.Json.obj [("total_tokens", Monitor.Json.num 42)])])
    else none

/-- A UTF-8 decode model mapping any byte list to the 42-token scenario body. -/
def c6_decode : List Nat → Option String := fun _ => some c6_body_str

/-- Witness for `C6_usage_extraction_uniform` on the concrete 42-token body. -/
theorem C6_witness :
    (Monitor.monitor_buffered c6_decode c6_parse true none
        ⟨"id", 0, "POST", "/v1/chat", 200, 5, none, none, none, none, none, none⟩
        [123]).log.input_tokens = none ∧
    (Monitor.monitor_buffered c6_decode c6_parse true none
        ⟨"id", 0, "POST", "/v1/chat", 200, 5, none, none, none, none, none, none⟩
        [123]).log.output_tokens = some 42 :=
  ⟨(C6_usage_extraction_uniform c6_parse "" c6_decode [123] c6_body_str true none
      ⟨"id", 0, "POST", "/v1/chat", 200, 5, none, none, none, none, none, none⟩
      (by decide) rfl rfl).2.2.1,
   (C6_usage_extraction_uniform c6_parse "" c6_decode [123] c6_body_str true none
      ⟨"id", 0, "POST", "/v1/chat", 200, 5, none, none, none, none, none, none⟩
      (by decide) rfl rfl).2.2.2⟩
